import Mathlib

/- Verification of the `Dlsys` content fetcher (src/dlsys/dlsys.py) against its
   natural-language specification.  The Python class is shallowly embedded:

   * Python values that can flow into the configuration methods are modelled by
     the inductive type `PyVal`.
   * The mutable instance is the structure `Dlsys`; mutation becomes explicit
     state passing, and a method that mutates `self` and returns `self` is a
     function returning the updated state.
   * Exceptions are modelled by `Except PyError`, and I/O (network, filesystem,
     worker pools) by an explicit `List Effect` trace emitted alongside the
     result.  A function whose error branch returns an empty trace performs no
     I/O before raising.
   * `multiprocessing.Pool()` construction is the effect `Effect.poolCreate`;
     the external fetch / HTTP / codec primitives are oracles passed in as
     function arguments. -/

/-- A Python runtime value, as far as the fetcher's configuration surface is
concerned: strings, integers, booleans, `None`, lists, tuples, and bound
methods (the last only so that attribute lookup can be modelled). -/
inductive PyVal where
  | vstr (s : String)
  | vint (n : Int)
  | vbool (b : Bool)
  | vnone
  | vlist (xs : List PyVal)
  | vtuple (xs : List PyVal)
  | vmethod (name : String)

/-- The Python exception classes the source can raise. -/
inductive PyError where
  | valueError
  | typeError
  | attributeError
  | fileNotFoundError
  deriving DecidableEq, Repr

/-- Observable side effects of the fetcher: directory creation, worker-pool
construction, the external fetch primitive, HTTP requests, file writes, audio
decoding and segment export, and progress prints. -/
inductive Effect where
  | mkdirParents (dir : String)
  | poolCreate
  | fetchAudio (url : PyVal) (outtmpl : String)
  | fetchVideo (outtmpl : String)
  | httpGet (url : String)
  | writeBytes (path : String)
  | writeText (path : String)
  | decodeAudio (path : String)
  | exportSegment (path : String)
  | logMsg (msg : String)

/-- The state of a `Dlsys` instance: exactly the five attributes assigned by
`__init__`.  `urls` keeps the Python values handed to `set_url` (the source
performs no element-type check), `split_minutes` is `None` or an integer
number of minutes (kept as `Nat`; the claims only exercise positive values). -/
structure Dlsys where
  urls : List PyVal
  output_path : String
  output_dir : String
  use_multiprocessing : Bool
  split_minutes : Option Nat

/-- `Dlsys.__init__`: empty URL list, default output template, current
directory, sequential dispatch, no split interval. -/
def dlsysInit : Dlsys :=
  { urls := []
    output_path := "%(title)s.%(ext)s"
    output_dir := "."
    use_multiprocessing := false
    split_minutes := none }

/-- The attribute names `__init__` stores in every instance `__dict__`.
Instance attributes shadow class attributes in Python's lookup order, which
matters because the data attribute `output_dir` and the configuration method
`output_dir` share a name. -/
def instanceDictNames : List String :=
  [("urls"), ("output_path"), ("output_dir"), ("use_multiprocessing"),
   ("split_minutes")]

/-- The attribute names defined in the class body (duplicate definitions of
`download_image` / `download_images` resolved to the last one, as Python
does). -/
def classDictNames : List String :=
  [("set_url"), ("set_output_path"), ("output_dir"), ("multi"), ("split"),
   ("audio"), ("download_audios"), ("_download_audio"), ("download_image"),
   ("download_images"), ("download_webpage"), ("download_webpages"),
   ("download_video"), ("split_audio")]

/-- Is a `PyVal` a Python `str`? -/
def PyVal.isStr : PyVal → Bool
  | .vstr _ => true
  | _ => false

/-- Python truthiness for the modelled values (empty strings, lists, tuples,
zero, `None` and `False` are falsy; bound methods are truthy). -/
def pyTruthy : PyVal → Bool
  | .vstr s => !(s == (""))
  | .vint n => !(n == 0)
  | .vbool b => b
  | .vnone => false
  | .vlist xs => !xs.isEmpty
  | .vtuple xs => !xs.isEmpty
  | .vmethod _ => true

/-- Attribute read `self.<name>` on a `Dlsys` instance: the instance
`__dict__` is consulted first (the five data attributes), then the class body
(a bound method); any other name raises `AttributeError`. -/
def Dlsys.getattr (d : Dlsys) (name : String) : Except PyError PyVal :=
  if name = ("urls") then .ok (.vlist d.urls)
  else if name = ("output_path") then .ok (.vstr d.output_path)
  else if name = ("output_dir") then .ok (.vstr d.output_dir)
  else if name = ("use_multiprocessing") then .ok (.vbool d.use_multiprocessing)
  else if name = ("split_minutes") then
    .ok (match d.split_minutes with | some n => .vint n | none => .vnone)
  else if name ∈ classDictNames then .ok (.vmethod name)
  else .error .attributeError

/-- `Dlsys.set_url`: a `str` is wrapped in a one-element list, a `list` is
stored as is (its elements are not inspected), anything else raises
`ValueError`.  The empty trace records that no I/O happens. -/
def Dlsys.set_url (d : Dlsys) (urls : PyVal) : Except PyError Dlsys × List Effect :=
  match urls with
  | .vstr _ => (.ok { d with urls := [urls] }, [])
  | .vlist xs => (.ok { d with urls := xs }, [])
  | _ => (.error .valueError, [])

/-- The five configuration calls of the spec, with their (valid) arguments. -/
inductive ConfigCall where
  | setUrl (arg : PyVal)
  | setOutputPath (s : String)
  | outputDir (s : String)
  | multi
  | split (n : Nat)

/-- The Python attribute name a configuration call goes through. -/
def ConfigCall.attrName : ConfigCall → String
  | .setUrl _ => ("set_url")
  | .setOutputPath _ => ("set_output_path")
  | .outputDir _ => ("output_dir")
  | .multi => ("multi")
  | .split _ => ("split")

/-- A configuration method call `d.<name>(arg)`.  Python resolves the name in
the instance `__dict__` first; for `output_dir` that yields the string data
attribute assigned by `__init__`, and calling a string raises `TypeError`.
The remaining methods resolve to the class body and mutate-and-return the
instance exactly as the source does. -/
def callConfig (d : Dlsys) (c : ConfigCall) : Except PyError Dlsys :=
  if c.attrName ∈ instanceDictNames then .error .typeError
  else
    match c with
    | .setUrl a => (d.set_url a).1
    | .setOutputPath s => .ok { d with output_path := s }
    | .outputDir s => .ok { d with output_dir := s }
    | .multi => .ok { d with use_multiprocessing := true }
    | .split n => .ok { d with split_minutes := some n }

/-- `Dlsys.download_video`: the source first evaluates `self.url`, but
`__init__` only defines `urls` (plural) and no class attribute `url` exists,
so the read raises `AttributeError` before any option construction or
network I/O; the intended `ValueError` branch and the fetch are unreachable. -/
def download_video (d : Dlsys) : Except PyError Dlsys × List Effect :=
  match d.getattr ("url") with
  | .error e => (.error e, [])
  | .ok v =>
    if pyTruthy v = false then (.error .valueError, [])
    else (.ok d, [Effect.fetchVideo d.output_path])

/-- The spec-side notion for C5: a sequence of strings (a Python `list` or
`tuple` each of whose elements is a `str`). -/
def isStringSeq : PyVal → Bool
  | .vlist xs => xs.all (fun x => x.isStr)
  | .vtuple xs => xs.all (fun x => x.isStr)
  | _ => false

/- Path helpers: shallow embeddings of the `os.path` (posixpath) functions the
   source uses.  `basename p` is the suffix of `p` after its last slash
   (CPython: `p[p.rfind(sep)+1:]`), `dirname` the prefix before it with
   trailing slashes stripped unless the prefix is all slashes, `splitext`
   drops the suffix starting at the last dot of the basename, where leading
   dots do not begin an extension. -/

/-- The suffix of a character list after the last occurrence of `c` (the whole
list when `c` does not occur). -/
def afterLastChar (c : Char) (cs : List Char) : List Char :=
  (cs.reverse.takeWhile (fun x => !(x == c))).reverse

/-- os.path.basename: the part of the path after the final slash. -/
def osBasename (p : String) : String :=
  String.mk (afterLastChar (Char.ofNat 47) p.data)

/-- os.path.dirname: the part of the path before the final slash, with
trailing slashes removed unless the result would be empty of other
characters. -/
def osDirname (p : String) : String :=
  let slash := Char.ofNat 47
  let cs := p.data
  if slash ∈ cs then
    let head := (cs.reverse.dropWhile (fun x => !(x == slash))).reverse
    if head.all (fun x => x == slash) then String.mk head
    else String.mk ((head.reverse.dropWhile (fun x => x == slash)).reverse)
  else ("")

/-- The characters of a (dotless-prefix) name before its last dot, or `none`
when it contains no dot. -/
def beforeLastDot (cs : List Char) : Option (List Char) :=
  match cs.reverse.dropWhile (fun x => !(x == Char.ofNat 46)) with
  | [] => none
  | _ :: rest => some rest.reverse

/-- os.path.splitext applied to a basename, root component: the name up to its
last dot, except that dots leading the name never begin an extension. -/
def splitextRoot (p : String) : String :=
  let dot := Char.ofNat 46
  let lead := p.data.takeWhile (fun x => x == dot)
  let rest := p.data.dropWhile (fun x => x == dot)
  match beforeLastDot rest with
  | some root => String.mk (lead ++ root)
  | none => p

/-- os.path.join for two components: the second wins when absolute, otherwise
the components are glued with a single slash. -/
def osPathJoin (a b : String) : String :=
  if b.startsWith ("/") then b
  else if a = ("") then b
  else if a.endsWith ("/") then a ++ b
  else a ++ ("/") ++ b

/- Audio segmentation (`Dlsys.split_audio`).  The audio codec primitive is
   abstracted into an oracle `fs : String → Option Nat` giving the decoded
   duration in milliseconds of an existing file and `none` for a missing
   path. -/

/-- math.ceil(a / b) over exact arithmetic, for `b > 0` (the source divides
by `minutes * 60 * 1000` with a positive `minutes`). -/
def pyCeilDiv (a b : Nat) : Nat :=
  if a % b = 0 then a / b else a / b + 1

/-- The nominal segment length in milliseconds:
`segment_length_ms = minutes * 60 * 1000`. -/
def segment_length_ms (minutes : Nat) : Nat := minutes * 60 * 1000

/-- One millisecond slice written by the segmentation loop: the output path
and the half-open interval of the decoded buffer it covers. -/
structure Segment where
  path : String
  start : Nat
  stop : Nat

/-- The output path of segment number `n` (1-based):
`<dir>/<basename-without-extension>_part<n>.mp3` next to the input file. -/
def part_name (input_file : String) (n : Nat) : String :=
  osPathJoin (osDirname input_file)
    (splitextRoot (osBasename input_file) ++ ("_part") ++ toString n ++ (".mp3"))

/-- The slices produced by `split_audio`'s loop for a buffer of `dur`
milliseconds and a segment length of `minutes` minutes: segment `i` (0-based)
covers `[i*L, (i+1)*L)` clipped to `dur`, `L = minutes*60*1000`, and is
exported as part `i+1`. -/
def split_audio_segments (dur minutes : Nat) (input_file : String) : List Segment :=
  let L := segment_length_ms minutes
  (List.range (pyCeilDiv dur L)).map (fun i =>
    { path := part_name input_file (i + 1)
      start := i * L
      stop := min ((i + 1) * L) dur })

/-- `Dlsys.split_audio`: a missing input path raises `FileNotFoundError`
before any decoding or writing (empty trace); otherwise the file is decoded
once and every slice is exported, with a progress print per segment. -/
def split_audio (fs : String → Option Nat) (d : Dlsys) (input_file : String)
    (minutes : Nat) : Except PyError Dlsys × List Effect :=
  match fs input_file with
  | none => (.error .fileNotFoundError, [])
  | some dur =>
    let segs := split_audio_segments dur minutes input_file
    (.ok d,
      Effect.decodeAudio input_file ::
        (segs.flatMap (fun s =>
          [Effect.exportSegment s.path, Effect.logMsg (("Exported: ") ++ s.path)])
        ++ [Effect.logMsg ("Split finished")]))

/- The audio terminal operation. The fetch/extract primitive is abstracted
   into an oracle `fetchPath : PyVal → String` returning the output path the
   library reports for a URL. -/

/-- `Dlsys._download_audio`: one fetch-and-extract job; emits the fetch
effect with the output template `os.path.join(output_dir, output_path)` and
a progress print, and returns the reported file path. -/
def _download_audio (fetchPath : PyVal → String) (d : Dlsys) (url : PyVal) :
    String × List Effect :=
  (fetchPath url,
   [Effect.fetchAudio url (osPathJoin d.output_dir d.output_path),
    Effect.logMsg ("Audio downloaded")])

/-- `Dlsys.download_audios`: creates the output directory, then runs one job
per URL — through a worker pool when `use_multiprocessing` is set, otherwise
sequentially — and returns the output paths. -/
def download_audios (fetchPath : PyVal → String) (d : Dlsys)
    (audio_urls : List PyVal) : List String × List Effect :=
  let jobs := audio_urls.map (_download_audio fetchPath d)
  (jobs.map Prod.fst,
   Effect.mkdirParents d.output_dir ::
     ((if d.use_multiprocessing then
         Effect.poolCreate :: jobs.flatMap Prod.snd
       else jobs.flatMap Prod.snd)
      ++ [Effect.logMsg ("All audio files downloaded!")]))

/-- The `if self.split_minutes:` truthiness test: splitting is requested
only for a configured non-zero interval. -/
def splitRequested : Option Nat → Option Nat
  | some (n + 1) => some (n + 1)
  | _ => none

/-- Sequential post-processing of the downloaded files: split each in turn,
propagating the first error (with the effects emitted up to it). -/
def split_many (fs : String → Option Nat) (d : Dlsys) (files : List String)
    (minutes : Nat) : Except PyError Dlsys × List Effect :=
  match files with
  | [] => (.ok d, [])
  | f :: rest =>
    let s := split_audio fs d f minutes
    match s.1 with
    | .error e => (.error e, s.2)
    | .ok _ =>
      let r := split_many fs d rest minutes
      (r.1, s.2 ++ r.2)

/-- `Dlsys.audio`: raises `ValueError` on an empty URL list before any I/O;
with exactly one URL runs the single fetch directly (no directory creation,
no pool); with several URLs delegates to `download_audios`; afterwards, when
a split interval is configured, splits every resulting file sequentially. -/
def audio (fetchPath : PyVal → String) (fs : String → Option Nat) (d : Dlsys) :
    Except PyError Dlsys × List Effect :=
  if d.urls.isEmpty then (.error .valueError, [])
  else if d.urls.length = 1 then
    let job := _download_audio fetchPath d (d.urls.headD PyVal.vnone)
    match splitRequested d.split_minutes with
    | some m =>
      let sp := split_audio fs d job.1 m
      (sp.1, job.2 ++ sp.2)
    | none => (.ok d, job.2)
  else
    let dl := download_audios fetchPath d d.urls
    match splitRequested d.split_minutes with
    | some m =>
      let sp := split_many fs d dl.1 m
      (sp.1, dl.2 ++ sp.2)
    | none => (.ok d, dl.2)

/- String helpers for the image/webpage filename derivations: shallow
   embeddings of Python's `str.split` (for a non-empty separator) and
   `str.replace` (for single-character arguments). -/

/-- One left-to-right, non-overlapping pass of Python `str.split(sep)` over a
character list.  `fuel` bounds the recursion; any value beyond the input
length is enough, since each step consumes at least one character for a
non-empty separator. -/
def pySplitGo (sep : List Char) : Nat → List Char → List Char → List (List Char)
  | 0, acc, cs => [acc.reverse ++ cs]
  | _ + 1, acc, [] => [acc.reverse]
  | fuel + 1, acc, c :: cs =>
    if sep.isPrefixOf (c :: cs) then
      acc.reverse :: pySplitGo sep fuel [] ((c :: cs).drop sep.length)
    else pySplitGo sep fuel (c :: acc) cs

/-- Python `s.split(sep)` for a non-empty separator (the source only splits
on `"://"`).  The result is never empty, so indexing with `[-1]` is total. -/
def pySplit (s sep : String) : List String :=
  (pySplitGo sep.data (s.data.length + 1) [] s.data).map String.mk

/-- Python `s.replace(a, b)` for single-character `a`, `b`: a character map. -/
def pyReplaceChar (a b : Char) (s : String) : String :=
  String.mk (s.data.map (fun c => if c = a then b else c))

/-- The filename `download_webpages` derives for a URL:
`url.split("://")[-1].replace("/", "_") + ".html"` — note the split takes the
text after the last occurrence of `"://"`. -/
def webpage_filename (url : String) : String :=
  pyReplaceChar (Char.ofNat 47) (Char.ofNat 95) ((pySplit url ("://")).getLastD url)
    ++ (".html")

/-- The filename `download_images` derives for a URL:
`os.path.basename(url)`, the suffix of the URL after its last slash. -/
def image_filename (url : String) : String := osBasename url

/-- Does `sep` occur (anywhere) as a contiguous substring of `cs`? -/
def hasSubstr (sep : List Char) : List Char → Bool
  | [] => sep.isEmpty
  | c :: cs => sep.isPrefixOf (c :: cs) || hasSubstr sep cs

/-- The characters after the first occurrence of `sep`, scanning left to
right with `fuel` bounding the recursion; `none` when `sep` never occurs. -/
def afterFirstSubstr (sep : List Char) : Nat → List Char → Option (List Char)
  | 0, _ => none
  | _ + 1, [] => none
  | fuel + 1, c :: cs =>
    if sep.isPrefixOf (c :: cs) then some ((c :: cs).drop sep.length)
    else afterFirstSubstr sep fuel cs

/-- The spec-side reading for C10: "the URL with its scheme stripped" — the
text after the first `"://"` separator, the URL itself when none occurs. -/
def spec_strip_scheme (url : String) : String :=
  match afterFirstSubstr (String.data ("://")) (url.data.length + 1) url.data with
  | some rest => String.mk rest
  | none => url

/-- The spec-side webpage filename for C10: scheme stripped, every path
separator replaced by an underscore, suffixed `.html`. -/
def spec_webpage_filename (url : String) : String :=
  pyReplaceChar (Char.ofNat 47) (Char.ofNat 95) (spec_strip_scheme url) ++ (".html")

/- The image / webpage batch operations.  The HTTP primitive is abstracted
   into an oracle `http : String → HttpResult`: `requests.get` followed by
   `raise_for_status` either yields a body or raises a `RequestException`
   (connection failure, or a non-2xx status such as 404). -/

/-- Outcome of an HTTP GET after `raise_for_status`. -/
inductive HttpResult where
  | success (body : String)
  | failure (status : Nat)

/-- Did the request fail (raise a `RequestException`)? -/
def HttpResult.isFailure : HttpResult → Bool
  | .failure _ => true
  | .success _ => false

/-- The effective `Dlsys.download_image` (the `staticmethod`, i.e. the last
definition of that name in the class body): GET the URL, write the body on
success; a `RequestException` is caught and logged, so the job itself never
raises and a failed job writes nothing. -/
def download_image (http : String → HttpResult) (url output_path : String) :
    List Effect :=
  match http url with
  | .success _ =>
    [Effect.httpGet url, Effect.writeBytes output_path,
     Effect.logMsg (("Image downloaded and saved to: ") ++ output_path)]
  | .failure _ =>
    [Effect.httpGet url, Effect.logMsg (("Error downloading image ") ++ url)]

/-- `Dlsys.download_webpage`: like `download_image` but writing the decoded
text body; a `RequestException` is likewise caught and logged. -/
def download_webpage (http : String → HttpResult) (url output_path : String) :
    List Effect :=
  match http url with
  | .success _ =>
    [Effect.httpGet url, Effect.writeText output_path,
     Effect.logMsg (("Webpage downloaded and saved to: ") ++ output_path)]
  | .failure _ =>
    [Effect.httpGet url, Effect.logMsg (("Error downloading webpage ") ++ url)]

/-- The effective `Dlsys.download_images` — the class body defines the name
twice and Python keeps the second definition (source lines 246-265): it
creates the output directory and then always constructs a worker pool,
regardless of `use_multiprocessing`, submitting one `download_image` job per
URL and joining all of them before returning the instance. -/
def download_images_run (http : String → HttpResult) (d : Dlsys)
    (image_urls : List String) : Except PyError Dlsys × List Effect :=
  (.ok d,
    Effect.mkdirParents d.output_dir :: Effect.poolCreate ::
      (image_urls.flatMap (fun url =>
        download_image http url (osPathJoin d.output_dir (image_filename url)))
       ++ [Effect.logMsg ("All images downloaded!")]))

/-- The shadowed first definition of `download_images` (source lines
145-170), kept for reference: it selects sequential or pooled dispatch by
the `use_multiprocessing` flag, exactly as the spec describes; Python
discards it in favour of the later definition of the same name. -/
def download_images_first_def (http : String → HttpResult) (d : Dlsys)
    (image_urls : List String) : Except PyError Dlsys × List Effect :=
  (.ok d,
    Effect.mkdirParents d.output_dir ::
      ((if d.use_multiprocessing then [Effect.poolCreate] else []) ++
       (image_urls.flatMap (fun url =>
          download_image http url (osPathJoin d.output_dir (image_filename url)))
        ++ [Effect.logMsg ("All images downloaded!")])))

/-- `Dlsys.download_webpages`: creates the output directory, then dispatches
one `download_webpage` job per URL — through a worker pool when
`use_multiprocessing` is set, sequentially otherwise — joining all jobs
before returning the instance. -/
def download_webpages_run (http : String → HttpResult) (d : Dlsys)
    (webpage_urls : List String) : Except PyError Dlsys × List Effect :=
  (.ok d,
    Effect.mkdirParents d.output_dir ::
      ((if d.use_multiprocessing then [Effect.poolCreate] else []) ++
       (webpage_urls.flatMap (fun url =>
          download_webpage http url (osPathJoin d.output_dir (webpage_filename url)))
        ++ [Effect.logMsg ("All webpages downloaded!")])))

/-- Is an effect a file write (binary or text)? -/
def isWrite : Effect → Bool
  | .writeBytes _ => true
  | .writeText _ => true
  | _ => false

/-- The number of files an effect trace writes. -/
def writeCount (effects : List Effect) : Nat := (effects.filter isWrite).length

/-- A concrete HTTP oracle for witnesses: one URL answers 404, the rest
succeed. -/
def http404 : String → HttpResult := fun u =>
  if u = ("https://h/b.jpg") then .failure 404 else .success ("body")

/-- A concrete three-URL batch for witnesses, whose middle URL fails under
`http404`. -/
def urls3 : List String :=
  [("https://h/a.jpg"), ("https://h/b.jpg"), ("https://h/c.jpg")]

/-- C1: the claim that every configuration method, `output_dir` included,
returns the instance fails on the code: `__init__` stores the data attribute
`output_dir`, which shadows the method of the same name, so
`Dlsys().output_dir("downloads")` (the class docstring's own example chain)
raises `TypeError`; the other four configuration methods do mutate and
return the instance. -/
theorem C1_output_dir_shadowed :
    callConfig dlsysInit (ConfigCall.outputDir ("downloads")) = .error PyError.typeError
    ∧ callConfig dlsysInit (ConfigCall.setOutputPath ("t.mp3")) =
        .ok { dlsysInit with output_path := ("t.mp3") }
    ∧ callConfig dlsysInit ConfigCall.multi =
        .ok { dlsysInit with use_multiprocessing := true }
    ∧ callConfig dlsysInit (ConfigCall.split 60) =
        .ok { dlsysInit with split_minutes := some 60 }
    ∧ callConfig dlsysInit (ConfigCall.setUrl (PyVal.vstr ("u"))) =
        .ok { dlsysInit with urls := [PyVal.vstr ("u")] } :=
  ⟨rfl, rfl, rfl, rfl, rfl⟩

/-- C3: `download_video` with no URL configured does fail fast with an empty
effect trace, but with `AttributeError` (the `self.url` read, a misspelling
of `urls`) rather than the invalid-argument `ValueError` its own error
message intends — and it fails the same way even after a URL is set. -/
theorem C3_download_video_attribute_error :
    download_video dlsysInit = (.error PyError.attributeError, [])
    ∧ download_video { dlsysInit with urls := [PyVal.vstr ("u")] } =
        (.error PyError.attributeError, []) :=
  ⟨rfl, rfl⟩

/-- C5 counterexample: `set_url` checks `isinstance(urls, list)` and never
inspects elements, so the list `[1]` — neither a string nor a sequence of
strings — is accepted and stored, while the tuple `("a",)` — a sequence of
strings — raises `ValueError`; both contradict the claim as stated. -/
theorem C5_counterexample :
    PyVal.isStr (PyVal.vlist [PyVal.vint 1]) = false
    ∧ isStringSeq (PyVal.vlist [PyVal.vint 1]) = false
    ∧ (dlsysInit.set_url (PyVal.vlist [PyVal.vint 1])).1 =
        .ok { dlsysInit with urls := [PyVal.vint 1] }
    ∧ isStringSeq (PyVal.vtuple [PyVal.vstr ("a")]) = true
    ∧ (dlsysInit.set_url (PyVal.vtuple [PyVal.vstr ("a")])).1 =
        .error PyError.valueError :=
  ⟨rfl, rfl, rfl, rfl, rfl⟩

/-- C5 amended: `set_url` normalizes a single string into a one-element URL
list, stores any Python `list` as the URL list without checking its elements,
and raises `ValueError` for every other argument — in all cases with no
network activity (empty effect trace). -/
theorem C5_set_url_behavior (d : Dlsys) (v : PyVal) :
    (∀ s, v = PyVal.vstr s → d.set_url v = (.ok { d with urls := [v] }, []))
    ∧ (∀ xs, v = PyVal.vlist xs → d.set_url v = (.ok { d with urls := xs }, []))
    ∧ (v.isStr = false → (∀ xs, v ≠ PyVal.vlist xs) →
        d.set_url v = (.error PyError.valueError, [])) := by
  refine ⟨?_, ?_, ?_⟩
  · intro s hs; subst hs; rfl
  · intro xs hx; subst hx; rfl
  · intro hstr hlist
    cases v with
    | vstr s => simp [PyVal.isStr] at hstr
    | vlist xs => exact absurd rfl (hlist xs)
    | vint n => rfl
    | vbool b => rfl
    | vnone => rfl
    | vtuple xs => rfl
    | vmethod n => rfl

/-- C5 witness: the three branches of `C5_set_url_behavior` evaluated on the
fresh instance at a string, a list, and `None`. -/
theorem C5_set_url_behavior_witness :
    dlsysInit.set_url (PyVal.vstr ("u")) =
      (.ok { dlsysInit with urls := [PyVal.vstr ("u")] }, [])
    ∧ dlsysInit.set_url (PyVal.vlist []) = (.ok { dlsysInit with urls := [] }, [])
    ∧ dlsysInit.set_url PyVal.vnone = (.error PyError.valueError, []) :=
  ⟨(C5_set_url_behavior dlsysInit (PyVal.vstr ("u"))).1 ("u") rfl,
   (C5_set_url_behavior dlsysInit (PyVal.vlist [])).2.1 [] rfl,
   (C5_set_url_behavior dlsysInit PyVal.vnone).2.2 rfl (fun _ h => nomatch h)⟩

/-- Helper: a single fetch job never constructs a worker pool. -/
lemma poolCreate_not_mem_download_audio (fetchPath : PyVal → String) (d : Dlsys)
    (url : PyVal) : Effect.poolCreate ∉ (_download_audio fetchPath d url).2 := by
  simp [_download_audio]

/-- Helper: segmentation never constructs a worker pool. -/
lemma poolCreate_not_mem_split_audio (fs : String → Option Nat) (d : Dlsys)
    (f : String) (m : Nat) : Effect.poolCreate ∉ (split_audio fs d f m).2 := by
  unfold split_audio
  cases hf : fs f with
  | none => simp
  | some dur => simp [List.mem_flatMap]

/-- Helper: sequential splitting of many files never constructs a pool. -/
lemma poolCreate_not_mem_split_many (fs : String → Option Nat) (d : Dlsys)
    (files : List String) (m : Nat) :
    Effect.poolCreate ∉ (split_many fs d files m).2 := by
  induction files with
  | nil => simp [split_many]
  | cons f rest ih =>
    unfold split_many
    cases hs : (split_audio fs d f m).1 with
    | error e =>
      simpa [hs] using poolCreate_not_mem_split_audio fs d f m
    | ok _ =>
      have h1 := poolCreate_not_mem_split_audio fs d f m
      simp [hs, List.mem_append]
      exact ⟨fun hc => h1 hc, fun hc => ih hc⟩

/-- C6: the audio terminal operation on an instance with an empty configured
URL list raises `ValueError` with an empty effect trace — no filesystem or
network side effect at all. -/
theorem C6_audio_unconfigured (fetchPath : PyVal → String)
    (fs : String → Option Nat) (d : Dlsys) (h : d.urls = []) :
    audio fetchPath fs d = (.error PyError.valueError, []) := by
  simp [audio, h]

/-- C6 witness: a fresh instance has no URLs and `audio` fails effect-free. -/
theorem C6_audio_unconfigured_witness :
    dlsysInit.urls = []
    ∧ audio (fun _ => ("out.mp3")) (fun _ => none) dlsysInit =
        (.error PyError.valueError, []) :=
  ⟨rfl, C6_audio_unconfigured (fun _ => ("out.mp3")) (fun _ => none) dlsysInit rfl⟩

/-- C7: segmentation of a non-existent input path fails with
`FileNotFoundError` and an empty effect trace: nothing is decoded and no
segment is written, so the existence check precedes all I/O. -/
theorem C7_split_audio_missing_file (fs : String → Option Nat) (d : Dlsys)
    (input_file : String) (minutes : Nat) (h : fs input_file = none) :
    split_audio fs d input_file minutes = (.error PyError.fileNotFoundError, []) := by
  simp [split_audio, h]

/-- C7 witness: on an empty filesystem, splitting `song.mp3` fails effect-free. -/
theorem C7_split_audio_missing_file_witness :
    (fun _ : String => (none : Option Nat)) ("song.mp3") = none
    ∧ split_audio (fun _ => none) dlsysInit ("song.mp3") 10 =
        (.error PyError.fileNotFoundError, []) :=
  ⟨rfl, C7_split_audio_missing_file (fun _ => none) dlsysInit ("song.mp3") 10 rfl⟩

/-- C8: with exactly one configured URL the audio operation never constructs
a worker pool, and with two or more URLs under the parallel flag it does. -/
theorem C8_audio_pool_policy (fetchPath : PyVal → String)
    (fs : String → Option Nat) (d : Dlsys) :
    (d.urls.length = 1 → Effect.poolCreate ∉ (audio fetchPath fs d).2)
    ∧ (2 ≤ d.urls.length → d.use_multiprocessing = true →
        Effect.poolCreate ∈ (audio fetchPath fs d).2) := by
  constructor
  · intro h1
    have hne : d.urls.isEmpty = false := by
      cases hu : d.urls with
      | nil => rw [hu] at h1; simp at h1
      | cons a l => simp
    unfold audio
    rw [hne]
    simp only [Bool.false_eq_true, if_false, h1, eq_self_iff_true, if_true]
    cases hsp : splitRequested d.split_minutes with
    | none =>
      simp only [hsp]
      simpa using poolCreate_not_mem_download_audio fetchPath d (d.urls.headD PyVal.vnone)
    | some m =>
      simp only [hsp, List.mem_append, not_or]
      constructor
      · simpa using
          poolCreate_not_mem_download_audio fetchPath d (d.urls.headD PyVal.vnone)
      · simpa using
          poolCreate_not_mem_split_audio fs d
            (_download_audio fetchPath d (d.urls.headD PyVal.vnone)).1 m
  · intro h2 hm
    have hne : d.urls.isEmpty = false := by
      cases hu : d.urls with
      | nil => rw [hu] at h2; simp at h2
      | cons a l => simp
    have h1 : ¬(d.urls.length = 1) := by omega
    unfold audio
    rw [hne]
    simp only [Bool.false_eq_true, if_false, h1, if_false]
    cases hsp : splitRequested d.split_minutes with
    | none => simp only [hsp]; simp [download_audios, hm]
    | some m => simp only [hsp]; simp [download_audios, hm, List.mem_append]

/-- C8 witness: one URL yields no pool; two URLs under the parallel flag do. -/
theorem C8_audio_pool_policy_witness :
    ({ dlsysInit with urls := [PyVal.vstr ("a")] } : Dlsys).urls.length = 1
    ∧ Effect.poolCreate ∉
        (audio (fun _ => ("o")) (fun _ => some 1000)
          { dlsysInit with urls := [PyVal.vstr ("a")] }).2
    ∧ 2 ≤ ({ dlsysInit with
              urls := [PyVal.vstr ("a"), PyVal.vstr ("b")],
              use_multiprocessing := true } : Dlsys).urls.length
    ∧ Effect.poolCreate ∈
        (audio (fun _ => ("o")) (fun _ => some 1000)
          { dlsysInit with
            urls := [PyVal.vstr ("a"), PyVal.vstr ("b")],
            use_multiprocessing := true }).2 :=
  ⟨rfl,
   (C8_audio_pool_policy (fun _ => ("o")) (fun _ => some 1000)
     { dlsysInit with urls := [PyVal.vstr ("a")] }).1 rfl,
   by decide,
   (C8_audio_pool_policy (fun _ => ("o")) (fun _ => some 1000)
     { dlsysInit with
       urls := [PyVal.vstr ("a"), PyVal.vstr ("b")],
       use_multiprocessing := true }).2 (by decide) rfl⟩

/-- Helper: `pyCeilDiv a b * b` is an upper bound of `a` for positive `b` —
half of the characterization of the ceiling. -/
lemma pyCeilDiv_mul_ge (a b : Nat) (hb : 0 < b) : a ≤ pyCeilDiv a b * b := by
  have h2 := Nat.div_add_mod a b
  have h1 : a % b < b := Nat.mod_lt a hb
  by_cases h : a % b = 0
  · unfold pyCeilDiv
    rw [if_pos h]
    have h3 : a / b * b = b * (a / b) := Nat.mul_comm ..
    omega
  · unfold pyCeilDiv
    rw [if_neg h]
    have h3 : (a / b + 1) * b = b * (a / b) + b := by ring
    omega

/-- Helper: one segment fewer would not cover a positive `a` — the other half
of the ceiling characterization. -/
lemma pyCeilDiv_pred_mul_lt (a b : Nat) (hb : 0 < b) (ha : 0 < a) :
    (pyCeilDiv a b - 1) * b < a := by
  have h2 := Nat.div_add_mod a b
  have h1 : a % b < b := Nat.mod_lt a hb
  by_cases h : a % b = 0
  · unfold pyCeilDiv
    rw [if_pos h]
    have h3 : (a / b - 1) * b = a / b * b - 1 * b := Nat.sub_mul ..
    have h4 : a / b * b = b * (a / b) := Nat.mul_comm ..
    omega
  · unfold pyCeilDiv
    rw [if_neg h]
    have h4 : (a / b + 1 - 1) * b = b * (a / b) := by
      simp [Nat.mul_comm]
    omega

/-- C4: for a decoded duration of `dur` milliseconds and a positive segment
length of `minutes` minutes, the segmentation loop produces exactly
`ceil(dur / (minutes*60*1000))` segments — the genuine ceiling, as the two
covering inequalities state — where segment `i` (0-based) is exported as part
`i+1` and covers `[i*L, (i+1)*L)` clipped to `dur`; for positive `dur` the
final segment runs from `(count-1)*L` to `dur`, so its duration is
`dur - (count-1)*L`, positive by the second inequality. -/
theorem C4_segmentation (dur minutes : Nat) (f : String) (hm : 0 < minutes) :
    (split_audio_segments dur minutes f).length = pyCeilDiv dur (segment_length_ms minutes)
    ∧ dur ≤ (split_audio_segments dur minutes f).length * segment_length_ms minutes
    ∧ (0 < dur →
        ((split_audio_segments dur minutes f).length - 1) * segment_length_ms minutes < dur)
    ∧ (∀ i, (h : i < (split_audio_segments dur minutes f).length) →
        (split_audio_segments dur minutes f).get ⟨i, h⟩ =
          { path := part_name f (i + 1)
            start := i * segment_length_ms minutes
            stop := min ((i + 1) * segment_length_ms minutes) dur })
    ∧ (0 < dur →
        (split_audio_segments dur minutes f).getLastD { path := (""), start := 0, stop := 0 } =
          { path := part_name f ((split_audio_segments dur minutes f).length)
            start := ((split_audio_segments dur minutes f).length - 1) * segment_length_ms minutes
            stop := dur }) := by
  have hM : 0 < segment_length_ms minutes := by
    unfold segment_length_ms; positivity
  have hlen : (split_audio_segments dur minutes f).length
      = pyCeilDiv dur (segment_length_ms minutes) := by
    simp [split_audio_segments]
  refine ⟨hlen, ?_, ?_, ?_, ?_⟩
  · rw [hlen]; exact pyCeilDiv_mul_ge dur _ hM
  · intro hd; rw [hlen]; exact pyCeilDiv_pred_mul_lt dur _ hM hd
  · intro i h
    simp [split_audio_segments, List.get_eq_getElem, List.getElem_map, List.getElem_range]
  · intro hd
    have hge := pyCeilDiv_mul_ge dur (segment_length_ms minutes) hM
    have hn : 0 < pyCeilDiv dur (segment_length_ms minutes) := by
      rcases Nat.eq_zero_or_pos (pyCeilDiv dur (segment_length_ms minutes)) with h0 | h0
      · rw [h0] at hge; simp at hge; omega
      · exact h0
    obtain ⟨k, hk⟩ : ∃ k, pyCeilDiv dur (segment_length_ms minutes) = k + 1 :=
      ⟨pyCeilDiv dur (segment_length_ms minutes) - 1, (Nat.succ_pred_eq_of_pos hn).symm⟩
    have hmin : min ((k + 1) * segment_length_ms minutes) dur = dur := by
      rw [hk] at hge
      exact Nat.min_eq_right hge
    rw [hlen, hk]
    have hk2 : pyCeilDiv dur (minutes * 60 * 1000) = k + 1 := by
      simpa [segment_length_ms] using hk
    unfold split_audio_segments
    simp only [segment_length_ms] at hmin ⊢
    rw [hk2]
    simp [List.range_succ, List.getLastD_concat, hmin]

/-- C4 witness: a 150-second buffer split at 1-minute intervals yields three
segments, with the covering inequalities and the final slice `[120000, 150000)`
of duration 30000 ms. -/
theorem C4_segmentation_witness :
    0 < 1
    ∧ (split_audio_segments 150000 1 ("song.mp3")).length
        = pyCeilDiv 150000 (segment_length_ms 1)
    ∧ 150000 ≤ (split_audio_segments 150000 1 ("song.mp3")).length * segment_length_ms 1
    ∧ ((split_audio_segments 150000 1 ("song.mp3")).length - 1) * segment_length_ms 1
        < 150000
    ∧ (split_audio_segments 150000 1 ("song.mp3")).getLastD
          { path := (""), start := 0, stop := 0 } =
        { path := part_name ("song.mp3") ((split_audio_segments 150000 1 ("song.mp3")).length)
          start := ((split_audio_segments 150000 1 ("song.mp3")).length - 1)
                     * segment_length_ms 1
          stop := 150000 } :=
  ⟨Nat.one_pos,
   (C4_segmentation 150000 1 ("song.mp3") Nat.one_pos).1,
   (C4_segmentation 150000 1 ("song.mp3") Nat.one_pos).2.1,
   (C4_segmentation 150000 1 ("song.mp3") Nat.one_pos).2.2.1 (by decide),
   (C4_segmentation 150000 1 ("song.mp3") Nat.one_pos).2.2.2.2 (by decide)⟩

/-- C2: the claim that both batch operations follow the flag-selected
dispatch policy fails on the code: the effective `download_images` (the
second definition of the name) always constructs a worker pool, even on a
fresh instance whose parallel flag is unset, while `download_webpages` obeys
the flag in both directions. -/
theorem C2_images_pool_ignores_flag :
    dlsysInit.use_multiprocessing = false
    ∧ Effect.poolCreate ∈
        (download_images_run (fun _ => .success ("")) dlsysInit
          [("https://h/p.jpg")]).2
    ∧ Effect.poolCreate ∉
        (download_webpages_run (fun _ => .success ("")) dlsysInit
          [("https://h/p")]).2
    ∧ Effect.poolCreate ∈
        (download_webpages_run (fun _ => .success (""))
          { dlsysInit with use_multiprocessing := true } [("https://h/p")]).2 := by
  refine ⟨rfl, ?_, ?_, ?_⟩
  · simp [download_images_run]
  · simp [download_webpages_run, download_webpage, dlsysInit]
  · simp [download_webpages_run, download_webpage, dlsysInit]

/-- Helper: a non-write effect at the head of a trace does not change its
write count. -/
lemma writeCount_cons (e : Effect) (l : List Effect) (h : isWrite e = false) :
    writeCount (e :: l) = writeCount l := by
  simp [writeCount, List.filter_cons, h]

/-- Helper: write counts add over concatenation. -/
lemma writeCount_append (l₁ l₂ : List Effect) :
    writeCount (l₁ ++ l₂) = writeCount l₁ + writeCount l₂ := by
  simp [writeCount, List.filter_append]

/-- Helper: one image job writes exactly one file on success, none on
failure. -/
lemma writeCount_download_image (http : String → HttpResult) (url p : String) :
    writeCount (download_image http url p)
      = if (http url).isFailure then 0 else 1 := by
  cases h : http url <;>
    simp [download_image, h, writeCount, isWrite, HttpResult.isFailure]

/-- Helper: one webpage job writes exactly one file on success, none on
failure. -/
lemma writeCount_download_webpage (http : String → HttpResult) (url p : String) :
    writeCount (download_webpage http url p)
      = if (http url).isFailure then 0 else 1 := by
  cases h : http url <;>
    simp [download_webpage, h, writeCount, isWrite, HttpResult.isFailure]

/-- Helper: the image batch body writes one file per succeeding URL. -/
lemma writeCount_images_flatMap (http : String → HttpResult) (g : String → String)
    (urls : List String) :
    writeCount (urls.flatMap (fun url => download_image http url (g url)))
      = (urls.filter (fun u => !((http u).isFailure))).length := by
  induction urls with
  | nil => rfl
  | cons u rest ih =>
    rw [List.flatMap_cons, writeCount_append, writeCount_download_image, ih]
    by_cases h : (http u).isFailure <;> simp [h, List.filter_cons]
    omega

/-- Helper: the webpage batch body writes one file per succeeding URL. -/
lemma writeCount_webpages_flatMap (http : String → HttpResult) (g : String → String)
    (urls : List String) :
    writeCount (urls.flatMap (fun url => download_webpage http url (g url)))
      = (urls.filter (fun u => !((http u).isFailure))).length := by
  induction urls with
  | nil => rfl
  | cons u rest ih =>
    rw [List.flatMap_cons, writeCount_append, writeCount_download_webpage, ih]
    by_cases h : (http u).isFailure <;> simp [h, List.filter_cons]
    omega

/-- Helper: a filter and its complement partition a list's length. -/
lemma length_filter_not_add {α : Type} (l : List α) (p : α → Bool) :
    (l.filter p).length + (l.filter (fun x => !(p x))).length = l.length := by
  induction l with
  | nil => rfl
  | cons x xs ih =>
    by_cases h : p x <;> simp [List.filter_cons, h] <;> omega

/-- Helper: the write count of the whole image batch equals the number of
succeeding URLs. -/
lemma writeCount_images_run (http : String → HttpResult) (d : Dlsys)
    (urls : List String) :
    writeCount (download_images_run http d urls).2
      = (urls.filter (fun u => !((http u).isFailure))).length := by
  show writeCount (Effect.mkdirParents d.output_dir :: Effect.poolCreate :: _) = _
  rw [writeCount_cons (Effect.mkdirParents d.output_dir) _ rfl,
      writeCount_cons Effect.poolCreate _ rfl, writeCount_append,
      writeCount_images_flatMap]
  simp [writeCount, isWrite]

/-- Helper: the write count of the whole webpage batch equals the number of
succeeding URLs, whichever dispatch mode the flag selects. -/
lemma writeCount_webpages_run (http : String → HttpResult) (d : Dlsys)
    (urls : List String) :
    writeCount (download_webpages_run http d urls).2
      = (urls.filter (fun u => !((http u).isFailure))).length := by
  have h0 : writeCount (if d.use_multiprocessing then [Effect.poolCreate] else []) = 0 := by
    cases d.use_multiprocessing <;> rfl
  show writeCount (Effect.mkdirParents d.output_dir :: _) = _
  rw [writeCount_cons (Effect.mkdirParents d.output_dir) _ rfl,
      writeCount_append, h0, writeCount_append,
      writeCount_webpages_flatMap]
  simp [writeCount, isWrite]

/-- C9: a batch in which exactly one URL's HTTP fetch fails still returns
normally (no exception escapes a job) and writes exactly `N - 1` files —
for the image batch and the webpage batch alike. -/
theorem C9_batch_single_failure (http : String → HttpResult) (d : Dlsys)
    (urls : List String)
    (h : (urls.filter (fun u => (http u).isFailure)).length = 1) :
    (download_images_run http d urls).1 = .ok d
    ∧ writeCount (download_images_run http d urls).2 = urls.length - 1
    ∧ (download_webpages_run http d urls).1 = .ok d
    ∧ writeCount (download_webpages_run http d urls).2 = urls.length - 1 := by
  have hpart := length_filter_not_add urls (fun u => (http u).isFailure)
  refine ⟨rfl, ?_, rfl, ?_⟩
  · rw [writeCount_images_run]; omega
  · rw [writeCount_webpages_run]; omega

/-- C9 witness: of three URLs the middle one answers 404 under `http404`;
both batches return normally and write two files. -/
theorem C9_batch_single_failure_witness :
    (urls3.filter (fun u => (http404 u).isFailure)).length = 1
    ∧ (download_images_run http404 dlsysInit urls3).1 = .ok dlsysInit
    ∧ writeCount (download_images_run http404 dlsysInit urls3).2 = urls3.length - 1
    ∧ writeCount (download_webpages_run http404 dlsysInit urls3).2 = urls3.length - 1 :=
  ⟨by decide,
   (C9_batch_single_failure http404 dlsysInit urls3 (by decide)).1,
   (C9_batch_single_failure http404 dlsysInit urls3 (by decide)).2.1,
   (C9_batch_single_failure http404 dlsysInit urls3 (by decide)).2.2.2⟩

/-- Helper: when the separator never occurs in the input, the split scan
returns the remaining input as one piece, whatever the fuel. -/
lemma pySplitGo_no_match (sep : List Char) :
    ∀ (fuel : Nat) (acc cs : List Char), hasSubstr sep cs = false →
      pySplitGo sep fuel acc cs = [acc.reverse ++ cs] := by
  intro fuel
  induction fuel with
  | zero => intro acc cs h; rfl
  | succ n ih =>
    intro acc cs h
    cases cs with
    | nil => simp [pySplitGo]
    | cons c rest =>
      have h2 : sep.isPrefixOf (c :: rest) = false ∧ hasSubstr sep rest = false := by
        simpa [hasSubstr] using h
      simp only [pySplitGo]
      rw [if_neg (by simp [h2.1]), ih (c :: acc) rest h2.2]
      simp

/-- Helper: splitting `sl ++ "://" ++ rest` on `"://"`, where the prefix `sl`
contains no colon (so no occurrence can start inside it or straddle the
junction) and `rest` contains no further separator, yields exactly the two
pieces. -/
lemma pySplitGo_scheme (rest : List Char)
    (hrest : hasSubstr [':', '/', '/'] rest = false) :
    ∀ (sl : List Char) (fuel : Nat) (acc : List Char),
      (∀ c ∈ sl, c ≠ ':') → sl.length < fuel →
      pySplitGo [':', '/', '/'] fuel acc (sl ++ [':', '/', '/'] ++ rest)
        = [acc.reverse ++ sl, rest] := by
  intro sl
  induction sl with
  | nil =>
    intro fuel acc hcol hfuel
    cases fuel with
    | zero => omega
    | succ n =>
      simp only [List.nil_append, List.cons_append, pySplitGo]
      rw [if_pos (by simp [List.isPrefixOf])]
      show acc.reverse :: pySplitGo [':', '/', '/'] n [] rest = [acc.reverse ++ [], rest]
      rw [pySplitGo_no_match [':', '/', '/'] n [] rest hrest]
      simp
  | cons c sc ih =>
    intro fuel acc hcol hfuel
    cases fuel with
    | zero => simp at hfuel
    | succ n =>
      have hc : c ≠ ':' := hcol c (by simp)
      have hb : ((':' : Char) == c) = false := beq_eq_false_iff_ne.mpr (Ne.symm hc)
      simp only [List.cons_append, pySplitGo]
      rw [if_neg (by simp [List.isPrefixOf, hb])]
      have hlen : sc.length < n := by simp at hfuel; omega
      have := ih n (c :: acc) (fun x hx => hcol x (by simp [hx])) hlen
      show pySplitGo [':', '/', '/'] n (c :: acc) (sc ++ [':', '/', '/'] ++ rest)
        = [acc.reverse ++ c :: sc, rest]
      rw [this]
      simp

/-- Helper: on a URL of the shape `scheme ++ "://" ++ rest` with a colon-free
scheme and no second separator in the remainder, Python's split yields the
scheme and the remainder. -/
lemma pySplit_scheme (scheme rest : String)
    (h1 : ∀ c ∈ scheme.data, c ≠ ':')
    (h2 : hasSubstr (String.data ("://")) rest.data = false) :
    pySplit (scheme ++ ("://") ++ rest) ("://") = [scheme, rest] := by
  have hsep : (String.data ("://")) = [':', '/', '/'] := rfl
  have hdata : (scheme ++ ("://") ++ rest).data
      = scheme.data ++ [':', '/', '/'] ++ rest.data := by
    rw [String.data_append, String.data_append, hsep]
  rw [hsep] at h2
  unfold pySplit
  rw [hdata, hsep]
  have hfuel : scheme.data.length
      < (scheme.data ++ [':', '/', '/'] ++ rest.data).length + 1 := by
    simp [List.length_append]
    omega
  rw [pySplitGo_scheme rest.data h2 scheme.data
        ((scheme.data ++ [':', '/', '/'] ++ rest.data).length + 1) [] h1 hfuel]
  simp

/-- Helper: the first occurrence of `"://"` in `sl ++ "://" ++ rest` with a
colon-free prefix `sl` is the junction, so the scan returns `rest`. -/
lemma afterFirstSubstr_scheme (rest : List Char) :
    ∀ (sl : List Char) (fuel : Nat),
      (∀ c ∈ sl, c ≠ ':') → sl.length < fuel →
      afterFirstSubstr [':', '/', '/'] fuel (sl ++ [':', '/', '/'] ++ rest)
        = some rest := by
  intro sl
  induction sl with
  | nil =>
    intro fuel hcol hfuel
    cases fuel with
    | zero => omega
    | succ n =>
      simp only [List.nil_append, List.cons_append, afterFirstSubstr]
      rw [if_pos (by simp [List.isPrefixOf])]
      simp
  | cons c sc ih =>
    intro fuel hcol hfuel
    cases fuel with
    | zero => simp at hfuel
    | succ n =>
      have hc : c ≠ ':' := hcol c (by simp)
      have hb : ((':' : Char) == c) = false := beq_eq_false_iff_ne.mpr (Ne.symm hc)
      simp only [List.cons_append, afterFirstSubstr]
      rw [if_neg (by simp [List.isPrefixOf, hb])]
      have hlen : sc.length < n := by simp at hfuel; omega
      have := ih n (fun x hx => hcol x (by simp [hx])) hlen
      simpa only [List.cons_append] using this

/-- Helper: stripping the scheme from `scheme ++ "://" ++ rest` with a
colon-free scheme gives exactly `rest`. -/
lemma spec_strip_scheme_of_scheme (scheme rest : String)
    (h1 : ∀ c ∈ scheme.data, c ≠ ':') :
    spec_strip_scheme (scheme ++ ("://") ++ rest) = rest := by
  have hsep : (String.data ("://")) = [':', '/', '/'] := rfl
  have hdata : (scheme ++ ("://") ++ rest).data
      = scheme.data ++ [':', '/', '/'] ++ rest.data := by
    rw [String.data_append, String.data_append, hsep]
  unfold spec_strip_scheme
  rw [hdata, hsep]
  have hfuel : scheme.data.length
      < (scheme.data ++ [':', '/', '/'] ++ rest.data).length + 1 := by
    simp [List.length_append]
    omega
  rw [afterFirstSubstr_scheme rest.data scheme.data
        ((scheme.data ++ [':', '/', '/'] ++ rest.data).length + 1) h1 hfuel]

/-- C10 counterexample: for a URL whose query embeds a second URL — so that
`"://"` occurs twice — the code's `split("://")[-1]` keeps only the text
after the last separator, not the scheme-stripped URL the claim derives:
the code produces `x.com.html` where the claim's derivation produces
`e.com_r?u=https:__x.com.html`. -/
theorem C10_counterexample :
    webpage_filename ("https://e.com/r?u=https://x.com") = ("x.com.html")
    ∧ spec_strip_scheme ("https://e.com/r?u=https://x.com")
        = ("e.com/r?u=https://x.com")
    ∧ spec_webpage_filename ("https://e.com/r?u=https://x.com")
        = ("e.com_r?u=https:__x.com.html")
    ∧ webpage_filename ("https://e.com/r?u=https://x.com")
        ≠ spec_webpage_filename ("https://e.com/r?u=https://x.com") := by
  refine ⟨by decide, by decide, by decide, by decide⟩

/-- C10 (amended): for every URL of the shape `scheme ++ "://" ++ rest` with
a colon-free scheme name and no second `"://"` in the remainder — i.e. every
URL with a single scheme separator — the webpage filename is exactly the
spec's derivation: the scheme-stripped URL with every slash replaced by an
underscore, suffixed `.html` (for URLs embedding a second separator the code
keeps only the part after the last one, as the counterexample shows); the
image filename is the basename of the URL, and the spec's two concrete
examples hold. -/
theorem C10_filename_derivation (scheme rest : String)
    (h1 : ∀ c ∈ scheme.data, c ≠ ':')
    (h2 : hasSubstr (String.data ("://")) rest.data = false) :
    spec_strip_scheme (scheme ++ ("://") ++ rest) = rest
    ∧ webpage_filename (scheme ++ ("://") ++ rest)
        = spec_webpage_filename (scheme ++ ("://") ++ rest)
    ∧ image_filename ("https://x.com/img/pic.jpg") = ("pic.jpg")
    ∧ webpage_filename ("https://example.com/a/b") = ("example.com_a_b.html") := by
  have hstrip := spec_strip_scheme_of_scheme scheme rest h1
  refine ⟨hstrip, ?_, by decide, by decide⟩
  unfold webpage_filename spec_webpage_filename
  rw [pySplit_scheme scheme rest h1 h2, hstrip]
  rfl

/-- C10 witness: the spec's own webpage example URL has a colon-free scheme
and a single separator, and both derivations agree on it. -/
theorem C10_filename_derivation_witness :
    (∀ c ∈ (String.data ("https")), c ≠ ':')
    ∧ hasSubstr (String.data ("://")) (String.data ("example.com/a/b")) = false
    ∧ spec_strip_scheme (("https") ++ ("://") ++ ("example.com/a/b"))
        = ("example.com/a/b")
    ∧ webpage_filename (("https") ++ ("://") ++ ("example.com/a/b"))
        = spec_webpage_filename (("https") ++ ("://") ++ ("example.com/a/b"))
    ∧ image_filename ("https://x.com/img/pic.jpg") = ("pic.jpg") :=
  ⟨by decide, by decide,
   (C10_filename_derivation ("https") ("example.com/a/b") (by decide) (by decide)).1,
   (C10_filename_derivation ("https") ("example.com/a/b") (by decide) (by decide)).2.1,
   (C10_filename_derivation ("https") ("example.com/a/b") (by decide) (by decide)).2.2.1⟩
